import Mathlib

/-!
Verification of the `go-metar` library: the METAR observation fetcher
(`FetchCurrentStationWeather` in `metar.go`) and the unit-conversion
helpers (`helpers.go`), shallowly embedded in Lean 4.

Go `float64` values are modelled as rationals (`ℚ`), Go `int`/`int64`
as `ℤ`.  The HTTP transport and the XML decoder are external
collaborators: they are abstracted as a client function producing a
`FetchOutcome` (transport error, decode error, or a decoded
`response` envelope); the fetch logic after that point is embedded
verbatim.  Go's dual return `(*Result, error)` is modelled as a pair
`Option Result × Option FetchError` so that the nil-discipline of the
source is itself provable rather than assumed.
-/

/-- The conversion helpers of `helpers.go`, verbatim over `ℚ`. -/
def InHgTohPa (inHg : ℚ) : ℚ :=
  inHg * 33.8638866667

/-- KtsToMs converts knots to meters per second (`helpers.go`). -/
def KtsToMs (kts : ℚ) : ℚ :=
  kts * 0.514444

/-- KtsToBft converts knots to Beaufort, embedding the `switch` of
`helpers.go` as nested conditionals in the same order. -/
def KtsToBft (kts : ℚ) : ℤ :=
  if kts < 1 then 0
  else if kts < 4 then 1
  else if kts < 7 then 2
  else if kts < 11 then 3
  else if kts < 16 then 4
  else if kts < 22 then 5
  else if kts < 28 then 6
  else if kts < 34 then 7
  else if kts < 41 then 8
  else if kts < 48 then 9
  else if kts < 56 then 10
  else if kts < 64 then 11
  else 12

/-- StatMileToKm converts statute miles to kilometers (`helpers.go`). -/
def StatMileToKm (sm : ℚ) : ℚ :=
  sm * 1.60934

/-- MbTohPa converts millibar to hectopascal (`helpers.go`); the source
multiplies by `0.1`. -/
def MbTohPa (mb : ℚ) : ℚ :=
  mb * 0.1

/-- The fixed query template `apiSource` of `metar.go`, with its single
`%s` placeholder for the station code. -/
def apiSource : String :=
  "https://www.aviationweather.gov/adds/dataserver_current/httpparam?dataSource=metars&requestType=retrieve&format=xml&stationString=%s&hoursBeforeNow=2&mostRecent=true"

/-- Substitution of a string for every `%s` verb in a character list:
the behaviour of Go's `fmt.Sprintf` on a format string whose only verbs
are `%s` and which receives one argument per verb. -/
def substPercentS (a : String) : List Char → List Char
  | [] => []
  | [c] => [c]
  | c :: d :: rest =>
    if c = '%' ∧ d = 's' then a.data ++ substPercentS a rest
    else c :: substPercentS a (d :: rest)

/-- Model of `fmt.Sprintf(tmpl, a)` for a `%s`-only template. -/
def goSprintfS (tmpl a : String) : String :=
  ⟨substPercentS a tmpl.data⟩

/-- An outbound HTTP request: method and target URL, as built by
`http.NewRequest("GET", ..., nil)` in `metar.go` (no body, no custom
headers). -/
structure Request where
  method : String
  url : String
deriving DecidableEq, Repr

/-- The request constructed by `FetchCurrentStationWeather`:
`http.NewRequest("GET", fmt.Sprintf(apiSource, station), nil)`. -/
def newRequest (station : String) : Request :=
  ⟨"GET", goSprintfS apiSource station⟩

/-- SkyCover is a string code in the source (`type SkyCover string`). -/
abbrev SkyCover := String

/-- FlightCategory is a string code in the source
(`type FlightCategory string`). -/
abbrev FlightCategory := String

/-- QualityControlFlags of `metar.go`: currently a single boolean. -/
structure QualityControlFlags where
  NoSignal : Bool
deriving DecidableEq, Repr

/-- The anonymous `sky_condition` sub-struct of `Result` in `metar.go`. -/
structure SkyConditionData where
  SkyCover : SkyCover
deriving DecidableEq, Repr

/-- Result holds all the data from the METAR request (`metar.go`).
Field for field the Go struct, minus the `XMLName` tag metadata;
`time.Time` is modelled as an absolute instant in `ℤ` (e.g. Unix
nanoseconds). -/
structure Result where
  RawText : String
  StationID : String
  ObservationTime : ℤ
  Latitude : ℚ
  Longitude : ℚ
  Temperature : ℚ
  Dewpoint : ℚ
  WindDirDegrees : ℤ
  WindSpeed : ℤ
  WindGust : ℤ
  VisibilityStatute : ℚ
  Altimeter : ℚ
  SeaLevelPressure : ℚ
  QualityControlFlags : QualityControlFlags
  WXString : String
  SkyCondition : SkyConditionData
  FlightCategory : FlightCategory
  MetarType : String
  Elevation : ℚ
deriving DecidableEq, Repr

/-- The anonymous `data` sub-struct of the `response` envelope:
declared result count (`num_results` attribute, a Go `int`) and the
decoded `METAR` sequence. -/
structure ResponseData where
  NumResults : ℤ
  Results : List Result
deriving DecidableEq, Repr

/-- The transient XML response envelope of `metar.go`. -/
structure response where
  Data : ResponseData
deriving DecidableEq, Repr

/-- Outcome of the two external steps of the fetch (HTTP transport via
the injected client, then XML decoding of the body): a transport
error, a decode error, or a successfully decoded envelope. -/
inductive FetchOutcome where
  | transportErr (msg : String)
  | decodeErr (msg : String)
  | decoded (r : response)
deriving DecidableEq, Repr

/-- The error taxonomy of the fetch call.  `panicOutOfBounds` stands
for the runtime panic Go would raise if `r.Data.Results[0]` were
evaluated out of bounds; it is proved unreachable. -/
inductive FetchError where
  | transport (msg : String)
  | decode (msg : String)
  | inconsistentCount (msg : String)
  | noData (msg : String)
  | panicOutOfBounds
deriving DecidableEq, Repr

/-- FetchCurrentStationWeather of `metar.go`.  The injected
`HTTPClient` together with the XML decoder is abstracted as `client`;
everything from the consistency checks on is embedded verbatim.  The
Go return `(*Result, error)` is the pair
`(Option Result, Option FetchError)`. -/
def FetchCurrentStationWeather (client : Request → FetchOutcome)
    (station : String) : Option Result × Option FetchError :=
  match client (newRequest station) with
  | .transportErr e => (none, some (.transport e))
  | .decodeErr e => (none, some (.decode e))
  | .decoded r =>
    if r.Data.NumResults ≠ (r.Data.Results.length : ℤ) then
      (none, some (.inconsistentCount "Got inconsistent number of results"))
    else if r.Data.NumResults = 0 then
      (none, some (.noData "Did not find any data for your station"))
    else
      match r.Data.Results[0]? with
      | some x => (some x, none)
      | none => (none, some .panicOutOfBounds)

/-- A concrete observation record used to instantiate witnesses. -/
def sampleResult : Result where
  RawText := "EDDH 011050Z 24008KT 9999 SCT024 17/11 Q1019 NOSIG"
  StationID := "EDDH"
  ObservationTime := 1696150200
  Latitude := 53.63
  Longitude := 10.0
  Temperature := 17
  Dewpoint := 11
  WindDirDegrees := 240
  WindSpeed := 8
  WindGust := 0
  VisibilityStatute := 6.21
  Altimeter := 30.09
  SeaLevelPressure := 1019
  QualityControlFlags := ⟨false⟩
  WXString := ""
  SkyCondition := ⟨"SCT"⟩
  FlightCategory := "VFR"
  MetarType := "METAR"
  Elevation := 8

/-! ### Band lemmas for `KtsToBft`
One lemma per arm of the `switch` in `helpers.go`, proved by walking
the conditional chain. -/

lemma ktsToBft_eq_0 (k : ℚ) (hhi : k < 1) : KtsToBft k = 0 := by
  simp only [KtsToBft]
  rw [if_pos hhi]

lemma ktsToBft_eq_1 (k : ℚ) (hlo : 1 ≤ k) (hhi : k < 4) : KtsToBft k = 1 := by
  have n1 : ¬k < 1 := not_lt.mpr hlo
  simp only [KtsToBft]
  rw [if_neg n1, if_pos hhi]

lemma ktsToBft_eq_2 (k : ℚ) (hlo : 4 ≤ k) (hhi : k < 7) : KtsToBft k = 2 := by
  have n1 : ¬k < 1 := by linarith
  have n4 : ¬k < 4 := not_lt.mpr hlo
  simp only [KtsToBft]
  rw [if_neg n1, if_neg n4, if_pos hhi]

lemma ktsToBft_eq_3 (k : ℚ) (hlo : 7 ≤ k) (hhi : k < 11) : KtsToBft k = 3 := by
  have n1 : ¬k < 1 := by linarith
  have n4 : ¬k < 4 := by linarith
  have n7 : ¬k < 7 := not_lt.mpr hlo
  simp only [KtsToBft]
  rw [if_neg n1, if_neg n4, if_neg n7, if_pos hhi]

lemma ktsToBft_eq_4 (k : ℚ) (hlo : 11 ≤ k) (hhi : k < 16) : KtsToBft k = 4 := by
  have n1 : ¬k < 1 := by linarith
  have n4 : ¬k < 4 := by linarith
  have n7 : ¬k < 7 := by linarith
  have n11 : ¬k < 11 := not_lt.mpr hlo
  simp only [KtsToBft]
  rw [if_neg n1, if_neg n4, if_neg n7, if_neg n11, if_pos hhi]

lemma ktsToBft_eq_5 (k : ℚ) (hlo : 16 ≤ k) (hhi : k < 22) : KtsToBft k = 5 := by
  have n1 : ¬k < 1 := by linarith
  have n4 : ¬k < 4 := by linarith
  have n7 : ¬k < 7 := by linarith
  have n11 : ¬k < 11 := by linarith
  have n16 : ¬k < 16 := not_lt.mpr hlo
  simp only [KtsToBft]
  rw [if_neg n1, if_neg n4, if_neg n7, if_neg n11, if_neg n16, if_pos hhi]

lemma ktsToBft_eq_6 (k : ℚ) (hlo : 22 ≤ k) (hhi : k < 28) : KtsToBft k = 6 := by
  have n1 : ¬k < 1 := by linarith
  have n4 : ¬k < 4 := by linarith
  have n7 : ¬k < 7 := by linarith
  have n11 : ¬k < 11 := by linarith
  have n16 : ¬k < 16 := by linarith
  have n22 : ¬k < 22 := not_lt.mpr hlo
  simp only [KtsToBft]
  rw [if_neg n1, if_neg n4, if_neg n7, if_neg n11, if_neg n16, if_neg n22,
    if_pos hhi]

lemma ktsToBft_eq_7 (k : ℚ) (hlo : 28 ≤ k) (hhi : k < 34) : KtsToBft k = 7 := by
  have n1 : ¬k < 1 := by linarith
  have n4 : ¬k < 4 := by linarith
  have n7 : ¬k < 7 := by linarith
  have n11 : ¬k < 11 := by linarith
  have n16 : ¬k < 16 := by linarith
  have n22 : ¬k < 22 := by linarith
  have n28 : ¬k < 28 := not_lt.mpr hlo
  simp only [KtsToBft]
  rw [if_neg n1, if_neg n4, if_neg n7, if_neg n11, if_neg n16, if_neg n22,
    if_neg n28, if_pos hhi]

lemma ktsToBft_eq_8 (k : ℚ) (hlo : 34 ≤ k) (hhi : k < 41) : KtsToBft k = 8 := by
  have n1 : ¬k < 1 := by linarith
  have n4 : ¬k < 4 := by linarith
  have n7 : ¬k < 7 := by linarith
  have n11 : ¬k < 11 := by linarith
  have n16 : ¬k < 16 := by linarith
  have n22 : ¬k < 22 := by linarith
  have n28 : ¬k < 28 := by linarith
  have n34 : ¬k < 34 := not_lt.mpr hlo
  simp only [KtsToBft]
  rw [if_neg n1, if_neg n4, if_neg n7, if_neg n11, if_neg n16, if_neg n22,
    if_neg n28, if_neg n34, if_pos hhi]

lemma ktsToBft_eq_9 (k : ℚ) (hlo : 41 ≤ k) (hhi : k < 48) : KtsToBft k = 9 := by
  have n1 : ¬k < 1 := by linarith
  have n4 : ¬k < 4 := by linarith
  have n7 : ¬k < 7 := by linarith
  have n11 : ¬k < 11 := by linarith
  have n16 : ¬k < 16 := by linarith
  have n22 : ¬k < 22 := by linarith
  have n28 : ¬k < 28 := by linarith
  have n34 : ¬k < 34 := by linarith
  have n41 : ¬k < 41 := not_lt.mpr hlo
  simp only [KtsToBft]
  rw [if_neg n1, if_neg n4, if_neg n7, if_neg n11, if_neg n16, if_neg n22,
    if_neg n28, if_neg n34, if_neg n41, if_pos hhi]

lemma ktsToBft_eq_10 (k : ℚ) (hlo : 48 ≤ k) (hhi : k < 56) : KtsToBft k = 10 := by
  have n1 : ¬k < 1 := by linarith
  have n4 : ¬k < 4 := by linarith
  have n7 : ¬k < 7 := by linarith
  have n11 : ¬k < 11 := by linarith
  have n16 : ¬k < 16 := by linarith
  have n22 : ¬k < 22 := by linarith
  have n28 : ¬k < 28 := by linarith
  have n34 : ¬k < 34 := by linarith
  have n41 : ¬k < 41 := by linarith
  have n48 : ¬k < 48 := not_lt.mpr hlo
  simp only [KtsToBft]
  rw [if_neg n1, if_neg n4, if_neg n7, if_neg n11, if_neg n16, if_neg n22,
    if_neg n28, if_neg n34, if_neg n41, if_neg n48, if_pos hhi]

lemma ktsToBft_eq_11 (k : ℚ) (hlo : 56 ≤ k) (hhi : k < 64) : KtsToBft k = 11 := by
  have n1 : ¬k < 1 := by linarith
  have n4 : ¬k < 4 := by linarith
  have n7 : ¬k < 7 := by linarith
  have n11 : ¬k < 11 := by linarith
  have n16 : ¬k < 16 := by linarith
  have n22 : ¬k < 22 := by linarith
  have n28 : ¬k < 28 := by linarith
  have n34 : ¬k < 34 := by linarith
  have n41 : ¬k < 41 := by linarith
  have n48 : ¬k < 48 := by linarith
  have n56 : ¬k < 56 := not_lt.mpr hlo
  simp only [KtsToBft]
  rw [if_neg n1, if_neg n4, if_neg n7, if_neg n11, if_neg n16, if_neg n22,
    if_neg n28, if_neg n34, if_neg n41, if_neg n48, if_neg n56, if_pos hhi]

lemma ktsToBft_eq_12 (k : ℚ) (hlo : 64 ≤ k) : KtsToBft k = 12 := by
  have n1 : ¬k < 1 := by linarith
  have n4 : ¬k < 4 := by linarith
  have n7 : ¬k < 7 := by linarith
  have n11 : ¬k < 11 := by linarith
  have n16 : ¬k < 16 := by linarith
  have n22 : ¬k < 22 := by linarith
  have n28 : ¬k < 28 := by linarith
  have n34 : ¬k < 34 := by linarith
  have n41 : ¬k < 41 := by linarith
  have n48 : ¬k < 48 := by linarith
  have n56 : ¬k < 56 := by linarith
  have n64 : ¬k < 64 := not_lt.mpr hlo
  simp only [KtsToBft]
  rw [if_neg n1, if_neg n4, if_neg n7, if_neg n11, if_neg n16, if_neg n22,
    if_neg n28, if_neg n34, if_neg n41, if_neg n48, if_neg n56, if_neg n64]

/-! ### Bound lemmas for `KtsToBft` -/

lemma ktsToBft_le_0 (k : ℚ) (h : k < 1) : KtsToBft k ≤ 0 :=
  le_of_eq (ktsToBft_eq_0 k h)

lemma ktsToBft_le_1 (k : ℚ) (h : k < 4) : KtsToBft k ≤ 1 := by
  rcases lt_or_le k 1 with h1 | h1
  · exact le_trans (ktsToBft_le_0 k h1) (by norm_num)
  · exact le_of_eq (ktsToBft_eq_1 k h1 h)

lemma ktsToBft_le_2 (k : ℚ) (h : k < 7) : KtsToBft k ≤ 2 := by
  rcases lt_or_le k 4 with h1 | h1
  · exact le_trans (ktsToBft_le_1 k h1) (by norm_num)
  · exact le_of_eq (ktsToBft_eq_2 k h1 h)

lemma ktsToBft_le_3 (k : ℚ) (h : k < 11) : KtsToBft k ≤ 3 := by
  rcases lt_or_le k 7 with h1 | h1
  · exact le_trans (ktsToBft_le_2 k h1) (by norm_num)
  · exact le_of_eq (ktsToBft_eq_3 k h1 h)

lemma ktsToBft_le_4 (k : ℚ) (h : k < 16) : KtsToBft k ≤ 4 := by
  rcases lt_or_le k 11 with h1 | h1
  · exact le_trans (ktsToBft_le_3 k h1) (by norm_num)
  · exact le_of_eq (ktsToBft_eq_4 k h1 h)

lemma ktsToBft_le_5 (k : ℚ) (h : k < 22) : KtsToBft k ≤ 5 := by
  rcases lt_or_le k 16 with h1 | h1
  · exact le_trans (ktsToBft_le_4 k h1) (by norm_num)
  · exact le_of_eq (ktsToBft_eq_5 k h1 h)

lemma ktsToBft_le_6 (k : ℚ) (h : k < 28) : KtsToBft k ≤ 6 := by
  rcases lt_or_le k 22 with h1 | h1
  · exact le_trans (ktsToBft_le_5 k h1) (by norm_num)
  · exact le_of_eq (ktsToBft_eq_6 k h1 h)

lemma ktsToBft_le_7 (k : ℚ) (h : k < 34) : KtsToBft k ≤ 7 := by
  rcases lt_or_le k 28 with h1 | h1
  · exact le_trans (ktsToBft_le_6 k h1) (by norm_num)
  · exact le_of_eq (ktsToBft_eq_7 k h1 h)

lemma ktsToBft_le_8 (k : ℚ) (h : k < 41) : KtsToBft k ≤ 8 := by
  rcases lt_or_le k 34 with h1 | h1
  · exact le_trans (ktsToBft_le_7 k h1) (by norm_num)
  · exact le_of_eq (ktsToBft_eq_8 k h1 h)

lemma ktsToBft_le_9 (k : ℚ) (h : k < 48) : KtsToBft k ≤ 9 := by
  rcases lt_or_le k 41 with h1 | h1
  · exact le_trans (ktsToBft_le_8 k h1) (by norm_num)
  · exact le_of_eq (ktsToBft_eq_9 k h1 h)

lemma ktsToBft_le_10 (k : ℚ) (h : k < 56) : KtsToBft k ≤ 10 := by
  rcases lt_or_le k 48 with h1 | h1
  · exact le_trans (ktsToBft_le_9 k h1) (by norm_num)
  · exact le_of_eq (ktsToBft_eq_10 k h1 h)

lemma ktsToBft_le_11 (k : ℚ) (h : k < 64) : KtsToBft k ≤ 11 := by
  rcases lt_or_le k 56 with h1 | h1
  · exact le_trans (ktsToBft_le_10 k h1) (by norm_num)
  · exact le_of_eq (ktsToBft_eq_11 k h1 h)

lemma ktsToBft_le_12 (k : ℚ) : KtsToBft k ≤ 12 := by
  rcases lt_or_le k 64 with h1 | h1
  · exact le_trans (ktsToBft_le_11 k h1) (by norm_num)
  · exact le_of_eq (ktsToBft_eq_12 k h1)

lemma ktsToBft_mono (x y : ℚ) (h : x ≤ y) : KtsToBft x ≤ KtsToBft y := by
  rcases lt_or_le y 1 with hy | hy
  · rw [ktsToBft_eq_0 y hy]
    exact ktsToBft_le_0 x (lt_of_le_of_lt h hy)
  rcases lt_or_le y 4 with hy4 | hy4
  · rw [ktsToBft_eq_1 y hy hy4]
    exact ktsToBft_le_1 x (lt_of_le_of_lt h hy4)
  rcases lt_or_le y 7 with hy7 | hy7
  · rw [ktsToBft_eq_2 y hy4 hy7]
    exact ktsToBft_le_2 x (lt_of_le_of_lt h hy7)
  rcases lt_or_le y 11 with hy11 | hy11
  · rw [ktsToBft_eq_3 y hy7 hy11]
    exact ktsToBft_le_3 x (lt_of_le_of_lt h hy11)
  rcases lt_or_le y 16 with hy16 | hy16
  · rw [ktsToBft_eq_4 y hy11 hy16]
    exact ktsToBft_le_4 x (lt_of_le_of_lt h hy16)
  rcases lt_or_le y 22 with hy22 | hy22
  · rw [ktsToBft_eq_5 y hy16 hy22]
    exact ktsToBft_le_5 x (lt_of_le_of_lt h hy22)
  rcases lt_or_le y 28 with hy28 | hy28
  · rw [ktsToBft_eq_6 y hy22 hy28]
    exact ktsToBft_le_6 x (lt_of_le_of_lt h hy28)
  rcases lt_or_le y 34 with hy34 | hy34
  · rw [ktsToBft_eq_7 y hy28 hy34]
    exact ktsToBft_le_7 x (lt_of_le_of_lt h hy34)
  rcases lt_or_le y 41 with hy41 | hy41
  · rw [ktsToBft_eq_8 y hy34 hy41]
    exact ktsToBft_le_8 x (lt_of_le_of_lt h hy41)
  rcases lt_or_le y 48 with hy48 | hy48
  · rw [ktsToBft_eq_9 y hy41 hy48]
    exact ktsToBft_le_9 x (lt_of_le_of_lt h hy48)
  rcases lt_or_le y 56 with hy56 | hy56
  · rw [ktsToBft_eq_10 y hy48 hy56]
    exact ktsToBft_le_10 x (lt_of_le_of_lt h hy56)
  rcases lt_or_le y 64 with hy64 | hy64
  · rw [ktsToBft_eq_11 y hy56 hy64]
    exact ktsToBft_le_11 x (lt_of_le_of_lt h hy64)
  · rw [ktsToBft_eq_12 y hy64]
    exact ktsToBft_le_12 x

lemma ktsToBft_nonneg (k : ℚ) : 0 ≤ KtsToBft k := by
  rcases lt_or_le k 1 with h | h
  · exact le_of_eq (ktsToBft_eq_0 k h).symm
  · have h0 : (0 : ℚ) ≤ k := le_trans (by norm_num) h
    have hm := ktsToBft_mono 0 k h0
    rwa [ktsToBft_eq_0 0 (by norm_num)] at hm

lemma ktsToBft_onto (b : ℤ) (h0 : 0 ≤ b) (h12 : b ≤ 12) :
    ∃ k : ℚ, KtsToBft k = b := by
  interval_cases b
  · exact ⟨0, by norm_num [KtsToBft]⟩
  · exact ⟨2, by norm_num [KtsToBft]⟩
  · exact ⟨5, by norm_num [KtsToBft]⟩
  · exact ⟨8, by norm_num [KtsToBft]⟩
  · exact ⟨12, by norm_num [KtsToBft]⟩
  · exact ⟨18, by norm_num [KtsToBft]⟩
  · exact ⟨25, by norm_num [KtsToBft]⟩
  · exact ⟨30, by norm_num [KtsToBft]⟩
  · exact ⟨38, by norm_num [KtsToBft]⟩
  · exact ⟨45, by norm_num [KtsToBft]⟩
  · exact ⟨50, by norm_num [KtsToBft]⟩
  · exact ⟨60, by norm_num [KtsToBft]⟩
  · exact ⟨64, by norm_num [KtsToBft]⟩

/-! ### Claim theorems -/

/-- C1: for every decoded envelope whose declared count equals the
length of the decoded sequence and whose sequence is non-empty,
`FetchCurrentStationWeather` succeeds and returns the first element of
the sequence unmodified, field for field, with no error and no
re-sorting of the sequence. -/
theorem fetch_returns_first_result (r : response) (s : String) (x : Result)
    (rest : List Result) (hres : r.Data.Results = x :: rest)
    (hcount : r.Data.NumResults = (r.Data.Results.length : ℤ)) :
    FetchCurrentStationWeather (fun _ => FetchOutcome.decoded r) s =
      (some x, none) := by
  simp [FetchCurrentStationWeather, hcount, hres]
  omega

/-- Witness for C1: a concrete well-formed one-observation envelope. -/
theorem fetch_returns_first_result_witness :
    FetchCurrentStationWeather
        (fun _ => FetchOutcome.decoded ⟨⟨1, [sampleResult]⟩⟩) "EDDH" =
      (some sampleResult, none) :=
  fetch_returns_first_result ⟨⟨1, [sampleResult]⟩⟩ "EDDH" sampleResult [] rfl rfl

/-- C2: whenever the declared result count differs from the actual
length of the decoded sequence, the fetch fails with the
Inconsistent-Count error and its fixed message, returning no
observation — for empty and non-empty sequences alike. -/
theorem fetch_inconsistent_count (r : response) (s : String)
    (h : r.Data.NumResults ≠ (r.Data.Results.length : ℤ)) :
    FetchCurrentStationWeather (fun _ => FetchOutcome.decoded r) s =
      (none, some (FetchError.inconsistentCount
        "Got inconsistent number of results")) := by
  simp [FetchCurrentStationWeather, h]

/-- Witness for C2: declared 1 with empty sequence, and declared 0 with
a one-element sequence. -/
theorem fetch_inconsistent_count_witness :
    FetchCurrentStationWeather
        (fun _ => FetchOutcome.decoded ⟨⟨1, []⟩⟩) "EDDH" =
      (none, some (FetchError.inconsistentCount
        "Got inconsistent number of results")) ∧
    FetchCurrentStationWeather
        (fun _ => FetchOutcome.decoded ⟨⟨0, [sampleResult]⟩⟩) "EDDH" =
      (none, some (FetchError.inconsistentCount
        "Got inconsistent number of results")) :=
  ⟨fetch_inconsistent_count ⟨⟨1, []⟩⟩ "EDDH" (by decide),
   fetch_inconsistent_count ⟨⟨0, [sampleResult]⟩⟩ "EDDH" (by decide)⟩

/-- C3: for an envelope with zero observations (declared count 0 and
empty sequence), the fetch fails with the No-Data error and its fixed
message, returning no observation. -/
theorem fetch_no_data (r : response) (s : String)
    (h0 : r.Data.NumResults = 0) (hnil : r.Data.Results = []) :
    FetchCurrentStationWeather (fun _ => FetchOutcome.decoded r) s =
      (none, some (FetchError.noData
        "Did not find any data for your station")) := by
  simp [FetchCurrentStationWeather, h0, hnil]

/-- Witness for C3: the concrete empty envelope. -/
theorem fetch_no_data_witness :
    FetchCurrentStationWeather
        (fun _ => FetchOutcome.decoded ⟨⟨0, []⟩⟩) "EDDH" =
      (none, some (FetchError.noData
        "Did not find any data for your station")) :=
  fetch_no_data ⟨⟨0, []⟩⟩ "EDDH" rfl rfl

/-- C4: `KtsToBft` realises the stepwise threshold table of the spec,
band by band; every negative input yields band 0 with no error; and
the listed sample points evaluate as stated. -/
theorem ktsToBft_threshold_table (k : ℚ) :
    (k < 1 → KtsToBft k = 0) ∧
    (1 ≤ k → k < 4 → KtsToBft k = 1) ∧
    (4 ≤ k → k < 7 → KtsToBft k = 2) ∧
    (7 ≤ k → k < 11 → KtsToBft k = 3) ∧
    (11 ≤ k → k < 16 → KtsToBft k = 4) ∧
    (16 ≤ k → k < 22 → KtsToBft k = 5) ∧
    (22 ≤ k → k < 28 → KtsToBft k = 6) ∧
    (28 ≤ k → k < 34 → KtsToBft k = 7) ∧
    (34 ≤ k → k < 41 → KtsToBft k = 8) ∧
    (41 ≤ k → k < 48 → KtsToBft k = 9) ∧
    (48 ≤ k → k < 56 → KtsToBft k = 10) ∧
    (56 ≤ k → k < 64 → KtsToBft k = 11) ∧
    (64 ≤ k → KtsToBft k = 12) ∧
    (k < 0 → KtsToBft k = 0) ∧
    KtsToBft 5 = 2 ∧ KtsToBft 0.5 = 0 ∧
    KtsToBft 63.9 = 11 ∧ KtsToBft 64 = 12 :=
  ⟨ktsToBft_eq_0 k, ktsToBft_eq_1 k, ktsToBft_eq_2 k, ktsToBft_eq_3 k,
   ktsToBft_eq_4 k, ktsToBft_eq_5 k, ktsToBft_eq_6 k, ktsToBft_eq_7 k,
   ktsToBft_eq_8 k, ktsToBft_eq_9 k, ktsToBft_eq_10 k, ktsToBft_eq_11 k,
   ktsToBft_eq_12 k, fun h => ktsToBft_eq_0 k (by linarith),
   by norm_num [KtsToBft], by norm_num [KtsToBft],
   by norm_num [KtsToBft], by norm_num [KtsToBft]⟩

/-- Witness for C4: the band conditions discharged at concrete inputs. -/
theorem ktsToBft_threshold_table_witness :
    KtsToBft 0.5 = 0 ∧ KtsToBft (-3) = 0 :=
  ⟨(ktsToBft_threshold_table 0.5).1 (by norm_num),
   (ktsToBft_threshold_table (-3)).1 (by norm_num)⟩

/-- C5 counterexample: `MbTohPa` is not the identity — at input 1 it
returns 0.1, not 1 (the source multiplies by 0.1, and its own test
expects `MbTohPa(1) == 0.1`). -/
theorem mbTohPa_not_identity_at_one : ¬MbTohPa 1 = 1 := by
  norm_num [MbTohPa]

/-- C5 amended: `MbTohPa` multiplies its input by 0.1 — despite
millibars and hectopascals being numerically equal units — so it
agrees with the identity only at 0. -/
theorem mbTohPa_scales_by_tenth (x : ℚ) :
    MbTohPa x = x * 0.1 ∧ (MbTohPa x = x ↔ x = 0) := by
  refine ⟨rfl, ?_, ?_⟩
  · intro h
    simp only [MbTohPa] at h
    have h10 : x * 0.1 = x * (1 / 10) := by norm_num
    rw [h10] at h
    linarith
  · intro h
    simp [MbTohPa, h]

/-- Witness for C5 amended: evaluated at 1 and at 0. -/
theorem mbTohPa_scales_by_tenth_witness :
    MbTohPa 1 = 1 * 0.1 ∧ (MbTohPa 0 = 0 ↔ (0 : ℚ) = 0) :=
  ⟨(mbTohPa_scales_by_tenth 1).1, (mbTohPa_scales_by_tenth 0).2⟩

/-- C6: each conversion utility is exactly multiplication by its fixed
factor, and each applied to 1 yields its factor. -/
theorem conversion_factors (x : ℚ) :
    KtsToMs x = x * 0.514444 ∧
    InHgTohPa x = x * 33.8638866667 ∧
    StatMileToKm x = x * 1.60934 ∧
    MbTohPa x = x * 0.1 ∧
    KtsToMs 1 = 0.514444 ∧
    InHgTohPa 1 = 33.8638866667 ∧
    StatMileToKm 1 = 1.60934 ∧
    MbTohPa 1 = 0.1 :=
  ⟨rfl, rfl, rfl, rfl, by norm_num [KtsToMs], by norm_num [InHgTohPa],
   by norm_num [StatMileToKm], by norm_num [MbTohPa]⟩

/-- C7: `KtsToBft` is monotone non-decreasing, its output lies in
0..12, and every band 0..12 is reached by some input. -/
theorem ktsToBft_mono_bounded_onto :
    (∀ x y : ℚ, x ≤ y → KtsToBft x ≤ KtsToBft y) ∧
    (∀ x : ℚ, 0 ≤ KtsToBft x ∧ KtsToBft x ≤ 12) ∧
    (∀ b : ℤ, 0 ≤ b → b ≤ 12 → ∃ k : ℚ, KtsToBft k = b) :=
  ⟨ktsToBft_mono, fun x => ⟨ktsToBft_nonneg x, ktsToBft_le_12 x⟩,
   ktsToBft_onto⟩

/-- Witness for C7: the three parts instantiated at concrete values. -/
theorem ktsToBft_mono_bounded_onto_witness :
    KtsToBft 3 ≤ KtsToBft 10 ∧
    (0 ≤ KtsToBft 100 ∧ KtsToBft 100 ≤ 12) ∧
    (∃ k : ℚ, KtsToBft k = 7) :=
  ⟨ktsToBft_mono_bounded_onto.1 3 10 (by norm_num),
   ktsToBft_mono_bounded_onto.2.1 100,
   ktsToBft_mono_bounded_onto.2.2 7 (by norm_num) (by norm_num)⟩

set_option maxRecDepth 4000 in
/-- C8: for every station code string, the constructed request is a GET
whose URL is the fixed METAR query template (XML format, most-recent
only, 2-hour lookback) with the station code substituted into its
single placeholder; no validation is applied to the code. -/
theorem newRequest_fixed_template (s : String) :
    newRequest s = ⟨"GET",
      "https://www.aviationweather.gov/adds/dataserver_current/httpparam?dataSource=metars&requestType=retrieve&format=xml&stationString=" ++
        (s ++ "&hoursBeforeNow=2&mostRecent=true")⟩ := by
  cases s with
  | mk l => rfl

/-- C9: the first-element access in `FetchCurrentStationWeather` is
reached only after both validations succeed, so the out-of-bounds
branch of the embedded indexing is unreachable, and the two guards
together force the sequence length to be at least 1. -/
theorem fetch_index_in_bounds :
    (∀ (client : Request → FetchOutcome) (s : String),
      (FetchCurrentStationWeather client s).2 ≠
        some FetchError.panicOutOfBounds) ∧
    (∀ r : response, r.Data.NumResults = (r.Data.Results.length : ℤ) →
      r.Data.NumResults ≠ 0 → 1 ≤ r.Data.Results.length) := by
  constructor
  · intro client s
    cases hc : client (newRequest s) with
    | transportErr e => simp [FetchCurrentStationWeather, hc]
    | decodeErr e => simp [FetchCurrentStationWeather, hc]
    | decoded r =>
      simp only [FetchCurrentStationWeather, hc]
      rcases hres : r.Data.Results with _ | ⟨x, rest⟩
      · simp only [hres, List.length_nil, Nat.cast_zero]
        split_ifs with h1 h2
        · simp
        · simp
        · exact absurd (not_not.mp h1) h2
      · simp only [hres, List.length_cons]
        split_ifs with h1 h2
        · simp
        · simp
        · simp
  · intro r h1 h2
    omega

/-- Witness for C9: a concrete well-formed envelope. -/
theorem fetch_index_in_bounds_witness :
    (FetchCurrentStationWeather
        (fun _ => FetchOutcome.decoded ⟨⟨1, [sampleResult]⟩⟩) "EDDH").2 ≠
      some FetchError.panicOutOfBounds ∧
    1 ≤ (response.mk ⟨1, [sampleResult]⟩).Data.Results.length :=
  ⟨fetch_index_in_bounds.1 (fun _ => FetchOutcome.decoded ⟨⟨1, [sampleResult]⟩⟩)
      "EDDH",
   fetch_index_in_bounds.2 ⟨⟨1, [sampleResult]⟩⟩ rfl (by decide)⟩

/-- C10: `FetchCurrentStationWeather` returns exactly one of an
observation or an error — on every path either the observation is nil
and the error non-nil, or the observation is non-nil and the error
nil. -/
theorem fetch_observation_xor_error (client : Request → FetchOutcome)
    (s : String) :
    ((FetchCurrentStationWeather client s).1 = none ∧
      ((FetchCurrentStationWeather client s).2).isSome = true) ∨
    (((FetchCurrentStationWeather client s).1).isSome = true ∧
      (FetchCurrentStationWeather client s).2 = none) := by
  cases hc : client (newRequest s) with
  | transportErr e => simp [FetchCurrentStationWeather, hc]
  | decodeErr e => simp [FetchCurrentStationWeather, hc]
  | decoded r =>
    simp only [FetchCurrentStationWeather, hc]
    split_ifs with h1 h2
    · simp
    · simp
    · rcases h0 : r.Data.Results[0]? with _ | x <;> simp [h0]
